import Mathlib

/-!
# Verification of the smart-meeting-assistant meeting service

Shallow embedding of `backend/app/services/meeting_service.py`,
`backend/app/models/meeting.py` and `backend/app/routes/meetings.py`.

The persistence gateway (an opaque storage backend reached through an
ORM-style query interface) is modelled as explicit state passing over a
`DB` record holding the tables.  Per the spec's data model and the service
code's own checks, `update`/`delete` on a missing id report not-found
(`none` / failure), which the service code inspects (`if meeting else
None`, `try/except`).  Wall-clock time (`datetime.utcnow()` and the
engine-maintained `createdAt`/`updatedAt` columns) is modelled by a
strictly monotone counter `now` stored in the state: every timestamp read
returns the current counter and advances it.  Floating-point transcript
offsets are modelled as rationals.
-/

namespace SmartMeeting

/-- `MeetingStatus` string enum from `models/meeting.py`. -/
inductive MeetingStatus where
  | SCHEDULED
  | IN_PROGRESS
  | COMPLETED
  | CANCELLED
deriving DecidableEq, Repr

/-- The `.value` of the `MeetingStatus` str enum (it subclasses `str`). -/
def MeetingStatus.toStr : MeetingStatus → String
  | .SCHEDULED => "SCHEDULED"
  | .IN_PROGRESS => "IN_PROGRESS"
  | .COMPLETED => "COMPLETED"
  | .CANCELLED => "CANCELLED"

/-- `SummaryType` str enum from `models/meeting.py`. -/
inductive SummaryType where
  | QUICK
  | DETAILED
  | ACTION_FOCUSED
deriving DecidableEq, Repr

/-- `ActionPriority` str enum from `models/meeting.py`. -/
inductive ActionPriority where
  | LOW
  | MEDIUM
  | HIGH
  | URGENT
deriving DecidableEq, Repr

/-- `ActionItemStatus` str enum from `models/meeting.py`. -/
inductive ActionItemStatus where
  | PENDING
  | IN_PROGRESS
  | COMPLETED
  | CANCELLED
deriving DecidableEq, Repr

/-- User row (spec data model: id, email, display name, avatar, creation
time).  Ids and timestamps are `Nat`. -/
structure User where
  id : Nat
  email : String
  name : Option String
  avatar : Option String
  createdAt : Nat
deriving DecidableEq, Repr

/-- Meeting row (spec data model / Prisma fields referenced by the
service: `title`, `description`, `scheduledAt`, `startedAt`, `endedAt`,
`status`, `meetingUrl`, `recordingUrl`, `organizerId`, `createdAt`,
`updatedAt`). -/
structure Meeting where
  id : Nat
  title : String
  description : Option String
  scheduledAt : Option Nat
  startedAt : Option Nat
  endedAt : Option Nat
  status : MeetingStatus
  meetingUrl : Option String
  recordingUrl : Option String
  organizerId : Nat
  createdAt : Nat
  updatedAt : Nat
deriving DecidableEq, Repr

/-- MeetingParticipant row (`meetingId`, `name`, `email`, `joinedAt`,
`leftAt`). -/
structure Participant where
  id : Nat
  meetingId : Nat
  name : String
  email : Option String
  joinedAt : Option Nat
  leftAt : Option Nat
deriving DecidableEq, Repr

/-- Transcript chunk row (speaker, content, start/end offsets, optional
confidence).  The float offsets are modelled as rationals. -/
structure Transcript where
  id : Nat
  meetingId : Nat
  speaker : Option String
  content : String
  startTime : Rat
  endTime : Rat
  confidence : Option Rat
  createdAt : Nat
deriving DecidableEq, Repr

/-- Summary row (type, content, ordered key points, timestamps). -/
structure Summary where
  id : Nat
  meetingId : Nat
  type : SummaryType
  content : String
  keyPoints : List String
  createdAt : Nat
  updatedAt : Nat
deriving DecidableEq, Repr

/-- Action item row (title, description, priority, status, due date,
optional assignee, timestamps). -/
structure ActionItem where
  id : Nat
  meetingId : Nat
  title : String
  description : Option String
  priority : ActionPriority
  status : ActionItemStatus
  dueDate : Option Nat
  assigneeId : Option Nat
  createdAt : Nat
  updatedAt : Nat
deriving DecidableEq, Repr

/-- The persistence gateway's state: one list per table, a fresh-id
counter, and the monotone clock `now` (see the module docstring). -/
structure DB where
  users : List User
  meetings : List Meeting
  participants : List Participant
  transcripts : List Transcript
  summaries : List Summary
  actionItems : List ActionItem
  nextId : Nat
  now : Nat
deriving DecidableEq, Repr

/-- The empty database. -/
def DB.empty : DB :=
  { users := [], meetings := [], participants := [], transcripts := [],
    summaries := [], actionItems := [], nextId := 0, now := 0 }

/-! ## Request models (`models/meeting.py`) -/

/-- Python's `email.split('@')[0]`: the characters before the first `'@'`
(the whole string when no `'@'` occurs). -/
def emailLocalPart (s : String) : String :=
  String.mk (s.data.takeWhile (fun c => c != '@'))

/-- Python truthiness of an optional string (`if status:`): `None` and
`""` are falsy and behave like an absent filter. -/
def pyTruthy : Option String → Option String
  | none => none
  | some s => if s == "" then none else some s

/-- Python's `str.isspace` on the ASCII whitespace characters (the
unicode whitespace range is not modelled). -/
def pyIsSpace (c : Char) : Bool :=
  c == ' ' || c == '\t' || c == '\n' || c == '\r' || c == '\x0b' || c == '\x0c'

/-- Python's `v.strip()`: remove leading and trailing whitespace. -/
def pyStrip (s : String) : String :=
  String.mk (((s.data.dropWhile pyIsSpace).reverse.dropWhile pyIsSpace).reverse)

/-- The `@validator('title')` body of `CreateMeetingRequest`:
`if not v or len(v.strip()) == 0: raise ValueError(...)`, else
`return v.strip()`. -/
def validate_title (v : String) : Except String String :=
  if v = "" ∨ (pyStrip v).length = 0 then Except.error "Meeting title cannot be empty"
  else Except.ok (pyStrip v)

/-- `CreateMeetingRequest` after pydantic validation: the `title` field
holds the value returned by `validate_title`. -/
structure CreateMeetingRequest where
  title : String
  description : Option String
  scheduled_at : Option Nat
  meeting_url : Option String
  organizer_email : String
deriving DecidableEq, Repr

/-- Constructing a `CreateMeetingRequest`: pydantic runs `validate_title`
on the raw `title`; the other fields are not validated (in particular
`organizer_email` is a plain `str`, not `EmailStr`). -/
def CreateMeetingRequest.validate (title : String) (description : Option String)
    (scheduled_at : Option Nat) (meeting_url : Option String)
    (organizer_email : String) : Except String CreateMeetingRequest :=
  match validate_title title with
  | Except.error e => Except.error e
  | Except.ok t =>
      Except.ok { title := t, description := description,
                  scheduled_at := scheduled_at, meeting_url := meeting_url,
                  organizer_email := organizer_email }

/-- `UpdateMeetingRequest`: all fields optional; note there is no
`started_at`/`ended_at` field. -/
structure UpdateMeetingRequest where
  title : Option String
  description : Option String
  scheduled_at : Option Nat
  meeting_url : Option String
  status : Option MeetingStatus
deriving DecidableEq, Repr

/-- `AddParticipantRequest` (`name`, optional `email`). -/
structure AddParticipantRequest where
  name : String
  email : Option String
deriving DecidableEq, Repr

/-! ## Response models (`models/meeting.py`) -/

/-- `MeetingParticipantResponse`. -/
structure MeetingParticipantResponse where
  id : Nat
  name : String
  email : Option String
  joined_at : Option Nat
  left_at : Option Nat
deriving DecidableEq, Repr

/-- `MeetingParticipantResponse.from_orm`. -/
def MeetingParticipantResponse.from_orm (p : Participant) : MeetingParticipantResponse :=
  { id := p.id, name := p.name, email := p.email,
    joined_at := p.joinedAt, left_at := p.leftAt }

/-- `MeetingResponse`: meeting fields plus the eagerly loaded `organizer`
and `participants` relations. -/
structure MeetingResponse where
  id : Nat
  title : String
  description : Option String
  scheduled_at : Option Nat
  started_at : Option Nat
  ended_at : Option Nat
  status : MeetingStatus
  meeting_url : Option String
  recording_url : Option String
  organizer : Option User
  participants : List MeetingParticipantResponse
  created_at : Nat
  updated_at : Nat
deriving DecidableEq, Repr

/-- `MeetingResponse.from_orm` on a meeting fetched with
`include={'organizer': True, 'participants': True}`: the relations are
resolved against the database the row was read from. -/
def MeetingResponse.from_orm (db : DB) (m : Meeting) : MeetingResponse :=
  { id := m.id, title := m.title, description := m.description,
    scheduled_at := m.scheduledAt, started_at := m.startedAt,
    ended_at := m.endedAt, status := m.status, meeting_url := m.meetingUrl,
    recording_url := m.recordingUrl,
    organizer := db.users.find? (fun u => u.id == m.organizerId),
    participants := (db.participants.filter (fun p => p.meetingId == m.id)).map
      MeetingParticipantResponse.from_orm,
    created_at := m.createdAt, updated_at := m.updatedAt }

/-- `UserResponse` used as the assignee of an action item. -/
structure ActionItemResponse where
  id : Nat
  title : String
  description : Option String
  priority : ActionPriority
  status : ActionItemStatus
  due_date : Option Nat
  assignee : Option User
  created_at : Nat
  updated_at : Nat
deriving DecidableEq, Repr

/-- `MeetingDetailResponse`: `MeetingResponse` plus the three optional
collections, defaulting to `[]` when not included. -/
structure MeetingDetailResponse where
  base : MeetingResponse
  transcripts : List Transcript
  summaries : List Summary
  action_items : List ActionItemResponse
deriving DecidableEq, Repr

/-! ## Persistence gateway operations -/

/-- The user row the upsert's `create` arm inserts. -/
def newUserRow (db : DB) (email : String) (name : String) : User :=
  { id := db.nextId, email := email, name := some name, avatar := none,
    createdAt := db.now }

/-- `db.user.upsert(where={'email': ...}, data={'create': {...},
'update': {}})`: return the user with the given email unmodified when one
exists, otherwise insert a fresh row with the given name. -/
def DB.userUpsert (db : DB) (email : String) (name : String) : User × DB :=
  match db.users.find? (fun u => u.email == email) with
  | some u => (u, db)
  | none =>
      (newUserRow db email name,
       { db with users := db.users ++ [newUserRow db email name],
                 nextId := db.nextId + 1, now := db.now + 1 })

/-- The state after the organizer upsert's create arm (fresh row
appended, id allocated, clock advanced). -/
def DB.afterNewUser (db : DB) (e n : String) : DB :=
  { db with users := db.users ++ [newUserRow db e n],
            nextId := db.nextId + 1, now := db.now + 1 }

/-- The meeting row `db.meeting.create` inserts. -/
def newMeetingRow (db : DB) (title : String) (description : Option String)
    (scheduledAt : Option Nat) (meetingUrl : Option String)
    (organizerId : Nat) (status : MeetingStatus) : Meeting :=
  { id := db.nextId, title := title, description := description,
    scheduledAt := scheduledAt, startedAt := none, endedAt := none,
    status := status, meetingUrl := meetingUrl, recordingUrl := none,
    organizerId := organizerId, createdAt := db.now, updatedAt := db.now }

/-- `db.meeting.create(data={...})`. -/
def DB.meetingCreate (db : DB) (title : String) (description : Option String)
    (scheduledAt : Option Nat) (meetingUrl : Option String)
    (organizerId : Nat) (status : MeetingStatus) : Meeting × DB :=
  (newMeetingRow db title description scheduledAt meetingUrl organizerId status,
   { db with
     meetings := db.meetings ++
       [newMeetingRow db title description scheduledAt meetingUrl organizerId status],
     nextId := db.nextId + 1, now := db.now + 1 })

/-- `db.meeting.find_unique(where={'id': ...})`. -/
def DB.meetingFindUnique (db : DB) (id : Nat) : Option Meeting :=
  db.meetings.find? (fun m => m.id == id)

/-- The `data=` dict passed to `db.meeting.update`: a key is present
(`some`) exactly when the service put it in the dict. -/
structure MeetingUpdateData where
  title : Option String
  description : Option String
  scheduledAt : Option Nat
  meetingUrl : Option String
  status : Option MeetingStatus
  startedAt : Option Nat
  endedAt : Option Nat
deriving DecidableEq, Repr

/-- Applying an update dict to a row: present keys overwrite, absent keys
leave the column untouched; the engine maintains `updatedAt`. -/
def Meeting.applyUpdate (m : Meeting) (u : MeetingUpdateData) (t : Nat) : Meeting :=
  { id := m.id
    title := match u.title with | some v => v | none => m.title
    description := match u.description with | some v => some v | none => m.description
    scheduledAt := match u.scheduledAt with | some v => some v | none => m.scheduledAt
    startedAt := match u.startedAt with | some v => some v | none => m.startedAt
    endedAt := match u.endedAt with | some v => some v | none => m.endedAt
    status := match u.status with | some v => v | none => m.status
    meetingUrl := match u.meetingUrl with | some v => some v | none => m.meetingUrl
    recordingUrl := m.recordingUrl
    organizerId := m.organizerId
    createdAt := m.createdAt
    updatedAt := t }

/-- `db.meeting.update(where={'id': ...}, data=...)`: not-found when no
row has the id, otherwise overwrite the row. -/
def DB.meetingUpdate (db : DB) (id : Nat) (u : MeetingUpdateData) :
    Option (Meeting × DB) :=
  match db.meetings.find? (fun m => m.id == id) with
  | none => none
  | some m =>
      let m' := m.applyUpdate u db.now
      some (m', { db with
        meetings := db.meetings.map (fun x => if x.id == id then m' else x),
        now := db.now + 1 })

/-- `db.meeting.delete(where={'id': ...})`: fails (not-found) when no row
has the id. -/
def DB.meetingDelete (db : DB) (id : Nat) : Option DB :=
  match db.meetings.find? (fun m => m.id == id) with
  | none => none
  | some _ =>
      some { db with meetings := db.meetings.filter (fun m => !(m.id == id)),
                     now := db.now + 1 }

/-- Ordering relation for `order_by={'createdAt': 'desc'}`. -/
def createdDesc (a b : Meeting) : Prop := b.createdAt ≤ a.createdAt

instance : DecidableRel createdDesc := fun a b => Nat.decLe b.createdAt a.createdAt

instance : IsTotal Meeting createdDesc :=
  ⟨fun a b => Nat.le_total b.createdAt a.createdAt⟩

instance : IsTrans Meeting createdDesc :=
  ⟨fun _ _ _ hab hbc => Nat.le_trans hbc hab⟩

/-- `createdDesc` carried over to responses (`created_at`
descending). -/
def createdDescR (a b : MeetingResponse) : Prop := b.created_at ≤ a.created_at

instance : DecidableRel createdDescR :=
  fun a b => Nat.decLe b.created_at a.created_at

/-- The `where=` dict built by `list_meetings`. -/
structure MeetingWhere where
  status : Option String
  organizerEmail : Option String
deriving DecidableEq, Repr

/-- Whether a meeting row matches the `where=` dict; the `organizer`
relation filter compares the organizer's email. -/
def MeetingWhere.matches (db : DB) (w : MeetingWhere) (m : Meeting) : Bool :=
  (match w.status with
   | some s => m.status.toStr == s
   | none => true) &&
  (match w.organizerEmail with
   | some e =>
       match db.users.find? (fun u => u.id == m.organizerId) with
       | some u => u.email == e
       | none => false
   | none => true)

/-- `db.meeting.find_many(where=..., skip=..., take=...,
order_by={'createdAt': 'desc'})`. -/
def DB.meetingFindMany (db : DB) (w : MeetingWhere) (skip take : Nat) :
    List Meeting :=
  ((((db.meetings.filter (fun m => w.matches db m)).insertionSort
      createdDesc).drop skip).take take)

/-- `db.meetingparticipant.create(data={...})`. -/
def DB.participantCreate (db : DB) (meetingId : Nat) (name : String)
    (email : Option String) (joinedAt : Option Nat) : Participant × DB :=
  let p : Participant :=
    { id := db.nextId, meetingId := meetingId,
      name := name, email := email, joinedAt := joinedAt, leftAt := none }
  (p, { db with participants := db.participants ++ [p],
                nextId := db.nextId + 1, now := db.now + 1 })

/-- `db.meetingparticipant.update(where={'id': ...}, data=...)`: fails
(not-found) when no row has the id. -/
def DB.participantUpdate (db : DB) (id : Nat) (joinedAt leftAt : Option Nat) :
    Option (Participant × DB) :=
  match db.participants.find? (fun p => p.id == id) with
  | none => none
  | some p =>
      let p' : Participant := { p with
        joinedAt := match joinedAt with | some v => some v | none => p.joinedAt,
        leftAt := match leftAt with | some v => some v | none => p.leftAt }
      some (p', { db with
        participants := db.participants.map (fun x => if x.id == id then p' else x),
        now := db.now + 1 })

/-- Ordering relation for `order_by={'joinedAt': 'asc'}` (absent
timestamps sort first, as nulls-first). -/
def joinedAsc (a b : Participant) : Prop :=
  a.joinedAt.getD 0 ≤ b.joinedAt.getD 0

instance : DecidableRel joinedAsc :=
  fun a b => Nat.decLe (a.joinedAt.getD 0) (b.joinedAt.getD 0)

/-- `db.meetingparticipant.find_many(where={'meetingId': ...},
order_by={'joinedAt': 'asc'})`. -/
def DB.participantFindMany (db : DB) (meetingId : Nat) : List Participant :=
  (db.participants.filter (fun p => p.meetingId == meetingId)).insertionSort
    joinedAsc

/-! ## MeetingService (`services/meeting_service.py`)

Each method takes and returns the gateway state explicitly; `utcnow()`
reads advance the clock. -/

/-- `MeetingService.create_meeting`: upsert the organizer by email (the
default name is the email's local part), then create the meeting with
status `SCHEDULED`, returning it with organizer and participants
included. -/
def MeetingService.create_meeting (db : DB) (meeting_data : CreateMeetingRequest) :
    MeetingResponse × DB :=
  let userdb := db.userUpsert meeting_data.organizer_email
    (emailLocalPart meeting_data.organizer_email)
  let user := userdb.1
  let db1 := userdb.2
  let mdb := db1.meetingCreate meeting_data.title meeting_data.description
    meeting_data.scheduled_at meeting_data.meeting_url user.id
    MeetingStatus.SCHEDULED
  (MeetingResponse.from_orm mdb.2 mdb.1, mdb.2)

/-- `MeetingService.get_meeting_details`: the three flags each
independently add their collection to the load (action items eager-load
each assignee); `None` when the id does not resolve. -/
def MeetingService.get_meeting_details (db : DB) (meeting_id : Nat)
    (include_transcripts include_summaries include_action_items : Bool) :
    Option MeetingDetailResponse :=
  match db.meetingFindUnique meeting_id with
  | none => none
  | some m =>
      some
      { base := MeetingResponse.from_orm db m,
        transcripts :=
          if include_transcripts then
            db.transcripts.filter (fun t => t.meetingId == m.id)
          else [],
        summaries :=
          if include_summaries then
            db.summaries.filter (fun s => s.meetingId == m.id)
          else [],
        action_items :=
          if include_action_items then
            (db.actionItems.filter (fun a => a.meetingId == m.id)).map
              (fun a =>
                { id := a.id, title := a.title, description := a.description,
                  priority := a.priority, status := a.status,
                  due_date := a.dueDate,
                  assignee := match a.assigneeId with
                    | some uid => db.users.find? (fun u => u.id == uid)
                    | none => none,
                  created_at := a.createdAt, updated_at := a.updatedAt })
          else [] }

/-- `MeetingService.list_meetings`: the `where=` dict gets a `status` key
only when `status` is truthy (not `None`, not `""`), likewise
`organizer`. -/
def MeetingService.list_meetings (db : DB) (skip limit : Nat)
    (status organizer_email : Option String) : List MeetingResponse :=
  (db.meetingFindMany
    { status := pyTruthy status, organizerEmail := pyTruthy organizer_email }
    skip limit).map (MeetingResponse.from_orm db)

/-- `MeetingService.update_meeting`: pre-check existence (`find_unique`),
return `None` when missing, else update exactly the non-`None` request
fields. -/
def MeetingService.update_meeting (db : DB) (meeting_id : Nat)
    (meeting_data : UpdateMeetingRequest) : Option MeetingResponse × DB :=
  match db.meetingFindUnique meeting_id with
  | none => (none, db)
  | some _ =>
      let ud : MeetingUpdateData :=
        { title := meeting_data.title,
          description := meeting_data.description,
          scheduledAt := meeting_data.scheduled_at,
          meetingUrl := meeting_data.meeting_url,
          status := meeting_data.status,
          startedAt := none, endedAt := none }
      match db.meetingUpdate meeting_id ud with
      | some md => (some (MeetingResponse.from_orm md.2 md.1), md.2)
      | none => (none, db)

/-- `MeetingService.delete_meeting`: `try: delete; return True
except: return False`. -/
def MeetingService.delete_meeting (db : DB) (meeting_id : Nat) : Bool × DB :=
  match db.meetingDelete meeting_id with
  | some db' => (true, db')
  | none => (false, db)

/-- `MeetingService.start_meeting`: one unguarded update setting status
`IN_PROGRESS` and `startedAt := utcnow()`; `None` when the id is
missing. -/
def MeetingService.start_meeting (db : DB) (meeting_id : Nat) :
    Option MeetingResponse × DB :=
  match DB.meetingUpdate { db with now := db.now + 1 } meeting_id
      { title := none, description := none, scheduledAt := none,
        meetingUrl := none, status := some MeetingStatus.IN_PROGRESS,
        startedAt := some db.now, endedAt := none } with
  | some md => (some (MeetingResponse.from_orm md.2 md.1), md.2)
  | none => (none, { db with now := db.now + 1 })

/-- `MeetingService.end_meeting`: one unguarded update setting status
`COMPLETED` and `endedAt := utcnow()`; `None` when the id is missing. -/
def MeetingService.end_meeting (db : DB) (meeting_id : Nat) :
    Option MeetingResponse × DB :=
  match DB.meetingUpdate { db with now := db.now + 1 } meeting_id
      { title := none, description := none, scheduledAt := none,
        meetingUrl := none, status := some MeetingStatus.COMPLETED,
        startedAt := none, endedAt := some db.now } with
  | some md => (some (MeetingResponse.from_orm md.2 md.1), md.2)
  | none => (none, { db with now := db.now + 1 })

/-- `MeetingService.add_participant`: check the meeting exists, then
create the participant with `joinedAt := utcnow()`. -/
def MeetingService.add_participant (db : DB) (meeting_id : Nat)
    (participant_data : AddParticipantRequest) :
    Option MeetingParticipantResponse × DB :=
  match db.meetingFindUnique meeting_id with
  | none => (none, db)
  | some _ =>
      let t := db.now
      let db1 : DB := { db with now := db.now + 1 }
      let pdb := db1.participantCreate meeting_id participant_data.name
        participant_data.email (some t)
      (some (MeetingParticipantResponse.from_orm pdb.1), pdb.2)

/-- `MeetingService.get_participants`: all participants of the meeting,
ordered by `joinedAt` ascending. -/
def MeetingService.get_participants (db : DB) (meeting_id : Nat) :
    List MeetingParticipantResponse :=
  (db.participantFindMany meeting_id).map MeetingParticipantResponse.from_orm

/-- `MeetingService.update_participant_status`: apply only the supplied
timestamps; any failure (including a missing id) becomes `None`. -/
def MeetingService.update_participant_status (db : DB) (participant_id : Nat)
    (joined_at left_at : Option Nat) :
    Option MeetingParticipantResponse × DB :=
  match db.participantUpdate participant_id joined_at left_at with
  | some pdb => (some (MeetingParticipantResponse.from_orm pdb.1), pdb.2)
  | none => (none, db)

/-! ## Route layer (`routes/meetings.py`) -/

/-- `fastapi.HTTPException` as raised by the route handlers. -/
structure HTTPException where
  status_code : Nat
  detail : String
deriving DecidableEq, Repr

/-- `APIResponse` success envelope; the `data` dict of the start/end
endpoints (`meeting_id` plus the timestamp) is modelled as a pair. -/
structure APIResponse where
  success : Bool
  message : String
  data : Option (Nat × Option Nat)
deriving DecidableEq, Repr

/-- `POST /api/v1/meetings/`: pydantic validation error on the body
surfaces through the handler's `except ValueError` as a 400. -/
def routes.create_meeting (db : DB) (title : String)
    (description : Option String) (scheduled_at : Option Nat)
    (meeting_url : Option String) (organizer_email : String) :
    Except HTTPException MeetingResponse × DB :=
  match CreateMeetingRequest.validate title description scheduled_at
      meeting_url organizer_email with
  | Except.error e => (Except.error { status_code := 400, detail := e }, db)
  | Except.ok req =>
      let rdb := MeetingService.create_meeting db req
      (Except.ok rdb.1, rdb.2)

/-- `POST /api/v1/meetings/{id}/start`: 404 when the service reports the
meeting missing. -/
def routes.start_meeting (db : DB) (meeting_id : Nat) :
    Except HTTPException APIResponse × DB :=
  let rdb := MeetingService.start_meeting db meeting_id
  match rdb.1 with
  | none =>
      (Except.error { status_code := 404, detail := "Meeting not found" }, rdb.2)
  | some m =>
      (Except.ok { success := true, message := "Meeting started successfully",
                   data := some (meeting_id, m.started_at) }, rdb.2)

/-- `POST /api/v1/meetings/{id}/end`: 404 when the service reports the
meeting missing. -/
def routes.end_meeting (db : DB) (meeting_id : Nat) :
    Except HTTPException APIResponse × DB :=
  let rdb := MeetingService.end_meeting db meeting_id
  match rdb.1 with
  | none =>
      (Except.error { status_code := 404, detail := "Meeting not found" }, rdb.2)
  | some m =>
      (Except.ok { success := true, message := "Meeting ended successfully",
                   data := some (meeting_id, m.ended_at) }, rdb.2)

/-! ## Iterated calls -/

/-- `n` successive `start_meeting` calls on the same id (the state after
each call feeds the next). -/
def MeetingService.startN (db : DB) (meeting_id : Nat) : Nat → DB
  | 0 => db
  | n + 1 => MeetingService.startN (MeetingService.start_meeting db meeting_id).2 meeting_id n

/-! ## Concrete fixtures used by witnesses and counterexamples -/

/-- A sample user row. -/
def sampleUser : User :=
  { id := 0, email := "amy@example.com", name := some "amy", avatar := none,
    createdAt := 0 }

/-- A sample scheduled meeting organized by `sampleUser`. -/
def sampleMeeting : Meeting :=
  { id := 1, title := "Standup", description := none, scheduledAt := none,
    startedAt := none, endedAt := none, status := MeetingStatus.SCHEDULED,
    meetingUrl := none, recordingUrl := none, organizerId := 0,
    createdAt := 1, updatedAt := 1 }

/-- A database holding `sampleUser` and `sampleMeeting`. -/
def sampleDB : DB :=
  { users := [sampleUser], meetings := [sampleMeeting], participants := [],
    transcripts := [], summaries := [], actionItems := [], nextId := 2,
    now := 2 }

end SmartMeeting

namespace SmartMeeting

/-! ## Helper lemmas about the gateway -/

/-- Overwriting the row that `find?` located makes `find?` return the new
row, provided the new row keeps the id. -/
theorem find?_map_update (l : List Meeting) (id : Nat) (m m' : Meeting)
    (h : l.find? (fun x => x.id == id) = some m) (hm' : m'.id = id) :
    (l.map (fun x => if x.id == id then m' else x)).find? (fun x => x.id == id)
      = some m' := by
  induction l with
  | nil => simp at h
  | cons a l ih =>
    by_cases ha : a.id = id
    · simp [List.find?_cons, ha, hm']
    · have hfa : (a.id == id) = false := beq_false_of_ne ha
      rw [List.find?_cons_of_neg _ (by simp [hfa])] at h
      simp only [List.map_cons, if_neg (by simp [hfa] : ¬(a.id == id) = true)]
      rw [List.find?_cons_of_neg _ (by simp [hfa])]
      exact ih h

/-- A successful `find_unique` after a gateway update on that id. -/
theorem meetingUpdate_found {db : DB} {id : Nat} {m : Meeting}
    (u : MeetingUpdateData) (h : db.meetingFindUnique id = some m) :
    db.meetingUpdate id u = some (m.applyUpdate u db.now,
      { db with
        meetings := db.meetings.map
          (fun x => if x.id == id then m.applyUpdate u db.now else x),
        now := db.now + 1 }) := by
  unfold DB.meetingUpdate
  unfold DB.meetingFindUnique at h
  rw [h]

/-- `applyUpdate` keeps the row id. -/
theorem applyUpdate_id (m : Meeting) (u : MeetingUpdateData) (t : Nat) :
    (m.applyUpdate u t).id = m.id := rfl

/-- A found row's id matches the looked-up id. -/
theorem meetingFindUnique_id {db : DB} {id : Nat} {m : Meeting}
    (h : db.meetingFindUnique id = some m) : m.id = id := by
  have := List.find?_some h
  simpa using this

/-- Bumping the clock does not change lookups. -/
theorem meetingFindUnique_setNow (db : DB) (id : Nat) (t : Nat) :
    ({ db with now := t } : DB).meetingFindUnique id = db.meetingFindUnique id := rfl

/-- `start_meeting` on a missing id: `None`, one clock tick, no rows
touched. -/
theorem start_meeting_missing {db : DB} {id : Nat}
    (h : db.meetingFindUnique id = none) :
    MeetingService.start_meeting db id = (none, { db with now := db.now + 1 }) := by
  unfold MeetingService.start_meeting DB.meetingUpdate
  unfold DB.meetingFindUnique at h
  dsimp only
  rw [h]

/-- `start_meeting` on an existing id: the row is overwritten with status
`IN_PROGRESS` and `startedAt = db.now`, everything else kept. -/
theorem start_meeting_found {db : DB} {id : Nat} {m : Meeting}
    (h : db.meetingFindUnique id = some m) :
    MeetingService.start_meeting db id =
      (some (MeetingResponse.from_orm
          { db with
            meetings := db.meetings.map (fun x => if x.id == id then
              m.applyUpdate
                { title := none, description := none, scheduledAt := none,
                  meetingUrl := none,
                  status := some MeetingStatus.IN_PROGRESS,
                  startedAt := some db.now, endedAt := none } (db.now + 1)
              else x),
            now := db.now + 2 }
          (m.applyUpdate
            { title := none, description := none, scheduledAt := none,
              meetingUrl := none, status := some MeetingStatus.IN_PROGRESS,
              startedAt := some db.now, endedAt := none } (db.now + 1))),
        { db with
          meetings := db.meetings.map (fun x => if x.id == id then
            m.applyUpdate
              { title := none, description := none, scheduledAt := none,
                meetingUrl := none, status := some MeetingStatus.IN_PROGRESS,
                startedAt := some db.now, endedAt := none } (db.now + 1)
            else x),
          now := db.now + 2 }) := by
  have h' : ({ db with now := db.now + 1 } : DB).meetingFindUnique id = some m := h
  unfold MeetingService.start_meeting
  rw [meetingUpdate_found _ h']

/-- `end_meeting` on a missing id: `None`, one clock tick, no rows
touched. -/
theorem end_meeting_missing {db : DB} {id : Nat}
    (h : db.meetingFindUnique id = none) :
    MeetingService.end_meeting db id = (none, { db with now := db.now + 1 }) := by
  unfold MeetingService.end_meeting DB.meetingUpdate
  unfold DB.meetingFindUnique at h
  dsimp only
  rw [h]

/-- `end_meeting` on an existing id: the row is overwritten with status
`COMPLETED` and `endedAt = db.now`, everything else kept. -/
theorem end_meeting_found {db : DB} {id : Nat} {m : Meeting}
    (h : db.meetingFindUnique id = some m) :
    MeetingService.end_meeting db id =
      (some (MeetingResponse.from_orm
          { db with
            meetings := db.meetings.map (fun x => if x.id == id then
              m.applyUpdate
                { title := none, description := none, scheduledAt := none,
                  meetingUrl := none,
                  status := some MeetingStatus.COMPLETED,
                  startedAt := none, endedAt := some db.now } (db.now + 1)
              else x),
            now := db.now + 2 }
          (m.applyUpdate
            { title := none, description := none, scheduledAt := none,
              meetingUrl := none, status := some MeetingStatus.COMPLETED,
              startedAt := none, endedAt := some db.now } (db.now + 1))),
        { db with
          meetings := db.meetings.map (fun x => if x.id == id then
            m.applyUpdate
              { title := none, description := none, scheduledAt := none,
                meetingUrl := none, status := some MeetingStatus.COMPLETED,
                startedAt := none, endedAt := some db.now } (db.now + 1)
            else x),
          now := db.now + 2 }) := by
  have h' : ({ db with now := db.now + 1 } : DB).meetingFindUnique id = some m := h
  unfold MeetingService.end_meeting
  rw [meetingUpdate_found _ h']

/-- State form of `start_meeting_found`: the stored row after a
successful start. -/
theorem start_meeting_found_state {db : DB} {id : Nat} {m : Meeting}
    (h : db.meetingFindUnique id = some m) :
    ((MeetingService.start_meeting db id).2).meetingFindUnique id =
      some (m.applyUpdate
        { title := none, description := none, scheduledAt := none,
          meetingUrl := none, status := some MeetingStatus.IN_PROGRESS,
          startedAt := some db.now, endedAt := none } (db.now + 1)) ∧
    ((MeetingService.start_meeting db id).2).now = db.now + 2 := by
  rw [start_meeting_found h]
  refine ⟨?_, rfl⟩
  unfold DB.meetingFindUnique
  exact find?_map_update _ _ _ _ h ((applyUpdate_id _ _ _).trans (meetingFindUnique_id h))

/-- State form of `end_meeting_found`: the stored row after a successful
end. -/
theorem end_meeting_found_state {db : DB} {id : Nat} {m : Meeting}
    (h : db.meetingFindUnique id = some m) :
    ((MeetingService.end_meeting db id).2).meetingFindUnique id =
      some (m.applyUpdate
        { title := none, description := none, scheduledAt := none,
          meetingUrl := none, status := some MeetingStatus.COMPLETED,
          startedAt := none, endedAt := some db.now } (db.now + 1)) ∧
    ((MeetingService.end_meeting db id).2).now = db.now + 2 := by
  rw [end_meeting_found h]
  refine ⟨?_, rfl⟩
  unfold DB.meetingFindUnique
  exact find?_map_update _ _ _ _ h ((applyUpdate_id _ _ _).trans (meetingFindUnique_id h))

/-- `startN` keeps the meeting present. -/
theorem startN_exists {id : Nat} : ∀ (n : Nat) (db : DB) (m : Meeting),
    db.meetingFindUnique id = some m →
    ∃ m', (MeetingService.startN db id n).meetingFindUnique id = some m' := by
  intro n
  induction n with
  | zero => exact fun db m h => ⟨m, h⟩
  | succ n ih =>
      intro db m h
      exact ih _ _ (start_meeting_found_state h).1

/-- `startN (n+1)` is `startN n` followed by one more start. -/
theorem startN_succ (db : DB) (id : Nat) (n : Nat) :
    MeetingService.startN db id (n + 1) =
      (MeetingService.start_meeting (MeetingService.startN db id n) id).2 := by
  induction n generalizing db with
  | zero => rfl
  | succ n ih =>
      show MeetingService.startN (MeetingService.start_meeting db id).2 id (n + 1) = _
      rw [ih]
      rfl

/-- A string of length zero is the empty string. -/
theorem string_length_eq_zero {s : String} : s.length = 0 ↔ s = "" := by
  cases s with
  | mk data =>
      constructor
      · intro h
        rw [List.length_eq_zero.mp h]
      · intro h
        rw [h]
        rfl

/-- The condition tested by `validate_title` is exactly
"empty after stripping". -/
theorem validate_title_cond (v : String) :
    (v = "" ∨ (pyStrip v).length = 0) ↔ pyStrip v = "" := by
  constructor
  · rintro (h | h)
    · rw [h]
      rfl
    · exact string_length_eq_zero.mp h
  · intro h
    exact Or.inr (by rw [h]; rfl)

/-- The organizer upsert never touches the meetings table. -/
theorem userUpsert_meetings (db : DB) (e n : String) :
    ((db.userUpsert e n).2).meetings = db.meetings := by
  unfold DB.userUpsert
  cases hf : db.users.find? (fun u => u.email == e) with
  | none => rfl
  | some u => rfl

/-- `create_meeting` appends exactly one meeting row, carrying the
request's (already validated) title, status `SCHEDULED` and no
started/ended timestamps. -/
theorem create_meeting_meetings (db : DB) (req : CreateMeetingRequest) :
    ∃ m, ((MeetingService.create_meeting db req).2).meetings = db.meetings ++ [m] ∧
      m.title = req.title ∧ m.status = MeetingStatus.SCHEDULED ∧
      m.startedAt = none ∧ m.endedAt = none := by
  unfold MeetingService.create_meeting DB.meetingCreate
  dsimp only
  exact ⟨_, by rw [userUpsert_meetings], rfl, rfl, rfl, rfl⟩

/-- Upsert when a user with the email exists: the row is reused
unmodified and the state is untouched. -/
theorem userUpsert_found {db : DB} {e : String} (n : String) {u : User}
    (h : db.users.find? (fun x => x.email == e) = some u) :
    db.userUpsert e n = (u, db) := by
  unfold DB.userUpsert
  rw [h]

/-- Upsert when no user with the email exists: a fresh row is appended. -/
theorem userUpsert_missing {db : DB} {e : String} (n : String)
    (h : db.users.find? (fun x => x.email == e) = none) :
    db.userUpsert e n =
      (newUserRow db e n,
       { db with users := db.users ++ [newUserRow db e n],
                 nextId := db.nextId + 1, now := db.now + 1 }) := by
  unfold DB.userUpsert
  rw [h]

/-- Full state after `create_meeting` when the organizer already
exists. -/
theorem create_meeting_found_user {db : DB} {req : CreateMeetingRequest} {u : User}
    (h : db.users.find? (fun x => x.email == req.organizer_email) = some u) :
    MeetingService.create_meeting db req =
      (MeetingResponse.from_orm
        { db with
          meetings := db.meetings ++
            [newMeetingRow db req.title req.description req.scheduled_at
              req.meeting_url u.id MeetingStatus.SCHEDULED],
          nextId := db.nextId + 1, now := db.now + 1 }
        (newMeetingRow db req.title req.description req.scheduled_at
          req.meeting_url u.id MeetingStatus.SCHEDULED),
       { db with
         meetings := db.meetings ++
           [newMeetingRow db req.title req.description req.scheduled_at
             req.meeting_url u.id MeetingStatus.SCHEDULED],
         nextId := db.nextId + 1, now := db.now + 1 }) := by
  unfold MeetingService.create_meeting DB.meetingCreate
  rw [userUpsert_found _ h]

/-- Full state after `create_meeting` when the organizer is new: the
fresh user row (name = local part of the email) is appended and the
meeting references it. -/
theorem create_meeting_new_user {db : DB} {req : CreateMeetingRequest}
    (h : db.users.find? (fun x => x.email == req.organizer_email) = none) :
    MeetingService.create_meeting db req =
      (MeetingResponse.from_orm
        { db.afterNewUser req.organizer_email (emailLocalPart req.organizer_email) with
          meetings := db.meetings ++
            [newMeetingRow
              (db.afterNewUser req.organizer_email (emailLocalPart req.organizer_email))
              req.title req.description req.scheduled_at req.meeting_url
              (newUserRow db req.organizer_email (emailLocalPart req.organizer_email)).id
              MeetingStatus.SCHEDULED],
          nextId := db.nextId + 2, now := db.now + 2 }
        (newMeetingRow
          (db.afterNewUser req.organizer_email (emailLocalPart req.organizer_email))
          req.title req.description req.scheduled_at req.meeting_url
          (newUserRow db req.organizer_email (emailLocalPart req.organizer_email)).id
          MeetingStatus.SCHEDULED),
       { db.afterNewUser req.organizer_email (emailLocalPart req.organizer_email) with
         meetings := db.meetings ++
           [newMeetingRow
             (db.afterNewUser req.organizer_email (emailLocalPart req.organizer_email))
             req.title req.description req.scheduled_at req.meeting_url
             (newUserRow db req.organizer_email (emailLocalPart req.organizer_email)).id
             MeetingStatus.SCHEDULED],
         nextId := db.nextId + 2, now := db.now + 2 }) := by
  unfold MeetingService.create_meeting DB.meetingCreate DB.afterNewUser
  rw [userUpsert_missing _ h]

/-- A located row plus "at most one match" pins the match count at
one. -/
theorem countP_eq_one_of_find? {l : List User} {p : User → Bool} {u : User}
    (h : l.find? p = some u) (hle : l.countP p ≤ 1) : l.countP p = 1 := by
  have hpos : 0 < l.countP p :=
    List.countP_pos_iff.mpr ⟨u, List.mem_of_find?_eq_some h, List.find?_some h⟩
  omega

/-- A meeting returned by `find_many` is a stored row matching the
`where=` dict. -/
theorem meetingFindMany_mem {db : DB} {w : MeetingWhere} {skip take : Nat}
    {m : Meeting} (h : m ∈ db.meetingFindMany w skip take) :
    m ∈ db.meetings ∧ w.matches db m = true := by
  unfold DB.meetingFindMany at h
  have h1 := List.take_subset _ _ h
  have h2 := List.drop_subset _ _ h1
  have h3 := (List.perm_insertionSort createdDesc _).mem_iff.mp h2
  exact List.mem_filter.mp h3

/-- `find_many` returns its rows sorted by `createdAt` descending. -/
theorem meetingFindMany_sorted (db : DB) (w : MeetingWhere) (skip take : Nat) :
    List.Sorted createdDesc (db.meetingFindMany w skip take) := by
  unfold DB.meetingFindMany
  exact List.Pairwise.sublist
    ((List.take_sublist _ _).trans (List.drop_sublist _ _))
    (List.sorted_insertionSort createdDesc _)

/-- `split('@')[0]` of a string containing no `'@'` is the whole
string. -/
theorem emailLocalPart_no_at {e : String} (h : ∀ c ∈ e.data, c ≠ '@') :
    emailLocalPart e = e := by
  unfold emailLocalPart
  rw [List.takeWhile_eq_self_iff.mpr (fun c hc => bne_iff_ne.mpr (h c hc))]

/-- A supplied non-empty filter string passes the truthiness check. -/
theorem pyTruthy_some {v : String} (hv : v ≠ "") :
    pyTruthy (some v) = some v := by
  unfold pyTruthy
  simp [beq_eq_false_iff_ne.mpr hv]

/-! ## Claims -/

/-- C1: for every meeting_id that does not resolve to an existing
meeting, `start_meeting` and `end_meeting` return not-found, surfaced by
the route layer as a 404; for every existing meeting_id they return the
updated meeting (status `IN_PROGRESS` with fresh `started_at`, resp.
`COMPLETED` with fresh `ended_at`). -/
theorem startEnd_notFound_or_updated (db : DB) (id : Nat) :
    (db.meetingFindUnique id = none →
      (MeetingService.start_meeting db id).1 = none ∧
      (MeetingService.end_meeting db id).1 = none ∧
      (routes.start_meeting db id).1 =
        Except.error { status_code := 404, detail := "Meeting not found" } ∧
      (routes.end_meeting db id).1 =
        Except.error { status_code := 404, detail := "Meeting not found" }) ∧
    (∀ m, db.meetingFindUnique id = some m →
      (∃ r, (MeetingService.start_meeting db id).1 = some r ∧
        r.id = m.id ∧ r.status = MeetingStatus.IN_PROGRESS ∧
        r.started_at = some db.now) ∧
      (∃ r, (MeetingService.end_meeting db id).1 = some r ∧
        r.id = m.id ∧ r.status = MeetingStatus.COMPLETED ∧
        r.ended_at = some db.now)) := by
  constructor
  · intro h
    have hs := start_meeting_missing h
    have he := end_meeting_missing h
    refine ⟨by rw [hs], by rw [he], ?_, ?_⟩
    · unfold routes.start_meeting
      rw [hs]
    · unfold routes.end_meeting
      rw [he]
  · intro m h
    constructor
    · rw [start_meeting_found h]
      exact ⟨_, rfl, rfl, rfl, rfl⟩
    · rw [end_meeting_found h]
      exact ⟨_, rfl, rfl, rfl, rfl⟩

/-- C3: `create_meeting` fails with a `ValidationError` (surfaced as
400 by the route handler's `except ValueError`) iff the supplied title is
empty after trimming whitespace; for every title non-empty after
trimming, the stored title equals the trimmed input. -/
theorem create_meeting_title_validated (title : String)
    (description : Option String) (scheduled_at : Option Nat)
    (meeting_url : Option String) (organizer_email : String) (db : DB) :
    ((∃ e, validate_title title = Except.error e) ↔ pyStrip title = "") ∧
    (pyStrip title ≠ "" →
      validate_title title = Except.ok (pyStrip title) ∧
      ∃ req, CreateMeetingRequest.validate title description scheduled_at
          meeting_url organizer_email = Except.ok req ∧
        req.title = pyStrip title ∧
        ∃ m, ((MeetingService.create_meeting db req).2).meetings
            = db.meetings ++ [m] ∧ m.title = pyStrip title) ∧
    (pyStrip title = "" →
      (routes.create_meeting db title description scheduled_at meeting_url
          organizer_email).1 =
        Except.error { status_code := 400,
                       detail := "Meeting title cannot be empty" }) := by
  have herr : pyStrip title = "" →
      validate_title title = Except.error "Meeting title cannot be empty" := by
    intro h
    unfold validate_title
    rw [if_pos ((validate_title_cond title).mpr h)]
  refine ⟨⟨?_, ?_⟩, ?_, ?_⟩
  · rintro ⟨e, he⟩
    by_cases hc : title = "" ∨ (pyStrip title).length = 0
    · exact (validate_title_cond title).mp hc
    · unfold validate_title at he
      rw [if_neg hc] at he
      cases he
  · intro h
    exact ⟨"Meeting title cannot be empty", herr h⟩
  · intro h
    have hcond : ¬(title = "" ∨ (pyStrip title).length = 0) :=
      fun hc => h ((validate_title_cond title).mp hc)
    have hval : validate_title title = Except.ok (pyStrip title) := by
      unfold validate_title
      rw [if_neg hcond]
    refine ⟨hval, ?_⟩
    refine ⟨{ title := pyStrip title, description := description,
              scheduled_at := scheduled_at, meeting_url := meeting_url,
              organizer_email := organizer_email }, ?_, rfl, ?_⟩
    · unfold CreateMeetingRequest.validate
      rw [hval]
    · obtain ⟨m, hm, hmt, _⟩ := create_meeting_meetings db
        { title := pyStrip title, description := description,
          scheduled_at := scheduled_at, meeting_url := meeting_url,
          organizer_email := organizer_email }
      exact ⟨m, hm, hmt⟩
  · intro h
    unfold routes.create_meeting CreateMeetingRequest.validate
    rw [herr h]

/-- Witness for C3 with the titles `"  hi "` (valid) and `" "`
(whitespace-only). -/
theorem create_meeting_title_validated_witness :
    (validate_title "  hi " = Except.ok (pyStrip "  hi ") ∧
      ∃ req, CreateMeetingRequest.validate "  hi " none none none "amy@example.com"
          = Except.ok req ∧
        req.title = pyStrip "  hi " ∧
        ∃ m, ((MeetingService.create_meeting sampleDB req).2).meetings
            = sampleDB.meetings ++ [m] ∧ m.title = pyStrip "  hi ") ∧
    ((routes.create_meeting sampleDB " " none none none "amy@example.com").1 =
      Except.error { status_code := 400,
                     detail := "Meeting title cannot be empty" }) :=
  ⟨(create_meeting_title_validated "  hi " none none none "amy@example.com"
      sampleDB).2.1 (by decide),
   (create_meeting_title_validated " " none none none "amy@example.com"
      sampleDB).2.2 (by decide)⟩

/-- C2: for every existing meeting, `start_meeting` unconditionally sets
status `IN_PROGRESS` and `started_at` to the current time and
`end_meeting` unconditionally sets status `COMPLETED` and `ended_at` to
the current time, regardless of prior status; consequently any number of
starts followed by one end yields `started_at < ended_at` and final
status `COMPLETED`. -/
theorem start_end_unconditional (db : DB) (id : Nat) (n : Nat) (m : Meeting)
    (h : db.meetingFindUnique id = some m) :
    (∃ m1, ((MeetingService.start_meeting db id).2).meetingFindUnique id = some m1 ∧
      m1.status = MeetingStatus.IN_PROGRESS ∧ m1.startedAt = some db.now ∧
      m1.endedAt = m.endedAt) ∧
    (∃ m2, ((MeetingService.end_meeting db id).2).meetingFindUnique id = some m2 ∧
      m2.status = MeetingStatus.COMPLETED ∧ m2.endedAt = some db.now ∧
      m2.startedAt = m.startedAt) ∧
    (∃ t1 t2 m3,
      ((MeetingService.end_meeting (MeetingService.startN db id (n + 1)) id).2).meetingFindUnique id
        = some m3 ∧
      m3.status = MeetingStatus.COMPLETED ∧ m3.startedAt = some t1 ∧
      m3.endedAt = some t2 ∧ t1 < t2) := by
  refine ⟨⟨_, (start_meeting_found_state h).1, rfl, rfl, rfl⟩,
    ⟨_, (end_meeting_found_state h).1, rfl, rfl, rfl⟩, ?_⟩
  obtain ⟨mn, hmn⟩ := startN_exists n db m h
  rw [startN_succ]
  set dbn := MeetingService.startN db id n with hdbn
  obtain ⟨hfound, hnow⟩ := start_meeting_found_state hmn
  obtain ⟨hfound2, _⟩ := end_meeting_found_state hfound
  refine ⟨dbn.now, (MeetingService.start_meeting dbn id).2.now, _, hfound2, rfl, ?_, ?_, ?_⟩
  · rfl
  · rfl
  · rw [hnow]
    exact Nat.lt_add_of_pos_right (by decide)

/-- Witness for C2 on `sampleDB`, meeting `1`, with one extra prior
start (`n = 1`). -/
theorem start_end_unconditional_witness :
    (∃ m1, ((MeetingService.start_meeting sampleDB 1).2).meetingFindUnique 1 = some m1 ∧
      m1.status = MeetingStatus.IN_PROGRESS ∧ m1.startedAt = some sampleDB.now ∧
      m1.endedAt = sampleMeeting.endedAt) ∧
    (∃ m2, ((MeetingService.end_meeting sampleDB 1).2).meetingFindUnique 1 = some m2 ∧
      m2.status = MeetingStatus.COMPLETED ∧ m2.endedAt = some sampleDB.now ∧
      m2.startedAt = sampleMeeting.startedAt) ∧
    (∃ t1 t2 m3,
      ((MeetingService.end_meeting (MeetingService.startN sampleDB 1 2) 1).2).meetingFindUnique 1
        = some m3 ∧
      m3.status = MeetingStatus.COMPLETED ∧ m3.startedAt = some t1 ∧
      m3.endedAt = some t2 ∧ t1 < t2) :=
  start_end_unconditional sampleDB 1 1 sampleMeeting (by decide)

/-- C6: `create_meeting` creates the meeting with status `SCHEDULED` and
no started/ended timestamps, and resolves the organizer by
upsert-by-email: a missing user is created with the email's local part as
display name; an existing one is reused unmodified. -/
theorem create_meeting_scheduled_upsert (db : DB) (req : CreateMeetingRequest) :
    ∃ m, ((MeetingService.create_meeting db req).2).meetings = db.meetings ++ [m] ∧
      m.status = MeetingStatus.SCHEDULED ∧ m.startedAt = none ∧
      m.endedAt = none ∧ m.title = req.title ∧
      (MeetingService.create_meeting db req).1.status = MeetingStatus.SCHEDULED ∧
      (MeetingService.create_meeting db req).1.started_at = none ∧
      (MeetingService.create_meeting db req).1.ended_at = none ∧
      (match db.users.find? (fun x => x.email == req.organizer_email) with
       | some u =>
           ((MeetingService.create_meeting db req).2).users = db.users ∧
           m.organizerId = u.id
       | none =>
           ∃ newU, ((MeetingService.create_meeting db req).2).users
               = db.users ++ [newU] ∧
             newU.email = req.organizer_email ∧
             newU.name = some (emailLocalPart req.organizer_email) ∧
             m.organizerId = newU.id) := by
  cases hf : db.users.find? (fun x => x.email == req.organizer_email) with
  | some u =>
      rw [create_meeting_found_user hf]
      exact ⟨_, rfl, rfl, rfl, rfl, rfl, rfl, rfl, rfl, rfl, rfl⟩
  | none =>
      rw [create_meeting_new_user hf]
      exact ⟨_, rfl, rfl, rfl, rfl, rfl, rfl, rfl, rfl, _, rfl, rfl, rfl, rfl⟩

/-- C7: two successful creates with the same organizer email reuse the
same user row: afterwards a single user row with that email exists
(starting from a consistent state with at most one such row), and both
new meeting rows reference it. -/
theorem create_twice_single_user (db : DB) (r1 r2 : CreateMeetingRequest)
    (e : String) (h1 : r1.organizer_email = e) (h2 : r2.organizer_email = e)
    (hu : db.users.countP (fun x => x.email == e) ≤ 1) :
    ((MeetingService.create_meeting
        (MeetingService.create_meeting db r1).2 r2).2).users.countP
      (fun x => x.email == e) = 1 ∧
    ∃ m1 m2 u,
      ((MeetingService.create_meeting
          (MeetingService.create_meeting db r1).2 r2).2).meetings
        = db.meetings ++ [m1, m2] ∧
      m1.organizerId = u.id ∧ m2.organizerId = u.id ∧ u.email = e ∧
      ((MeetingService.create_meeting
          (MeetingService.create_meeting db r1).2 r2).2).users.find?
        (fun x => x.email == e) = some u := by
  cases hf : db.users.find? (fun x => x.email == e) with
  | some u =>
      have hf1 : db.users.find? (fun x => x.email == r1.organizer_email)
          = some u := by
        rw [h1]; exact hf
      rw [create_meeting_found_user hf1]
      dsimp only
      have hf2 : (({ db with
          meetings := db.meetings ++
            [newMeetingRow db r1.title r1.description r1.scheduled_at
              r1.meeting_url u.id MeetingStatus.SCHEDULED],
          nextId := db.nextId + 1, now := db.now + 1 } : DB)).users.find?
          (fun x => x.email == r2.organizer_email) = some u := by
        show db.users.find? (fun x => x.email == r2.organizer_email) = some u
        rw [h2]; exact hf
      rw [create_meeting_found_user hf2]
      dsimp only
      refine ⟨countP_eq_one_of_find? hf hu,
        newMeetingRow db r1.title r1.description r1.scheduled_at
          r1.meeting_url u.id MeetingStatus.SCHEDULED,
        newMeetingRow ({ db with
          meetings := db.meetings ++
            [newMeetingRow db r1.title r1.description r1.scheduled_at
              r1.meeting_url u.id MeetingStatus.SCHEDULED],
          nextId := db.nextId + 1, now := db.now + 1 } : DB)
          r2.title r2.description r2.scheduled_at r2.meeting_url u.id
          MeetingStatus.SCHEDULED,
        u, ?_, rfl, rfl, ?_, hf⟩
      · rw [List.append_assoc]
        rfl
      · have hb := List.find?_some hf
        exact eq_of_beq hb
  | none =>
      have hf1 : db.users.find? (fun x => x.email == r1.organizer_email)
          = none := by
        rw [h1]; exact hf
      rw [create_meeting_new_user hf1]
      dsimp only
      have hfu : ∀ s : String, s = e →
          (db.users ++ [newUserRow db r1.organizer_email
            (emailLocalPart r1.organizer_email)]).find?
            (fun x => x.email == s)
          = some (newUserRow db r1.organizer_email
              (emailLocalPart r1.organizer_email)) := by
        intro s hs
        rw [List.find?_append]
        have hnone : db.users.find? (fun x => x.email == s) = none := by
          rw [hs]; exact hf
        rw [hnone]
        rw [List.find?_cons_of_pos _
          (by show (r1.organizer_email == s) = true
              rw [hs, h1]
              exact beq_self_eq_true e)]
        rfl
      have hf2 : (({ db.afterNewUser r1.organizer_email
            (emailLocalPart r1.organizer_email) with
          meetings := db.meetings ++
            [newMeetingRow
              (db.afterNewUser r1.organizer_email
                (emailLocalPart r1.organizer_email))
              r1.title r1.description r1.scheduled_at r1.meeting_url
              (newUserRow db r1.organizer_email
                (emailLocalPart r1.organizer_email)).id
              MeetingStatus.SCHEDULED],
          nextId := db.nextId + 2, now := db.now + 2 } : DB)).users.find?
          (fun x => x.email == r2.organizer_email)
          = some (newUserRow db r1.organizer_email
              (emailLocalPart r1.organizer_email)) := by
        show (db.users ++ [newUserRow db r1.organizer_email
            (emailLocalPart r1.organizer_email)]).find?
            (fun x => x.email == r2.organizer_email) = _
        exact hfu r2.organizer_email h2
      rw [create_meeting_found_user hf2]
      dsimp only
      refine ⟨?_,
        newMeetingRow
          (db.afterNewUser r1.organizer_email
            (emailLocalPart r1.organizer_email))
          r1.title r1.description r1.scheduled_at r1.meeting_url
          (newUserRow db r1.organizer_email
            (emailLocalPart r1.organizer_email)).id
          MeetingStatus.SCHEDULED,
        newMeetingRow ({ db.afterNewUser r1.organizer_email
            (emailLocalPart r1.organizer_email) with
          meetings := db.meetings ++
            [newMeetingRow
              (db.afterNewUser r1.organizer_email
                (emailLocalPart r1.organizer_email))
              r1.title r1.description r1.scheduled_at r1.meeting_url
              (newUserRow db r1.organizer_email
                (emailLocalPart r1.organizer_email)).id
              MeetingStatus.SCHEDULED],
          nextId := db.nextId + 2, now := db.now + 2 } : DB)
          r2.title r2.description r2.scheduled_at r2.meeting_url
          (newUserRow db r1.organizer_email
            (emailLocalPart r1.organizer_email)).id
          MeetingStatus.SCHEDULED,
        newUserRow db r1.organizer_email (emailLocalPart r1.organizer_email),
        ?_, rfl, rfl, h1, ?_⟩
      · show List.countP (fun x => x.email == e)
          (db.users ++ [newUserRow db r1.organizer_email
            (emailLocalPart r1.organizer_email)]) = 1
        rw [List.countP_append,
          List.countP_eq_zero.mpr (List.find?_eq_none.mp hf),
          List.countP_cons_of_pos _ _
            (by show (r1.organizer_email == e) = true
                rw [h1]
                exact beq_self_eq_true e)]
        simp
      · show (db.meetings ++ [_]) ++ [_] = db.meetings ++ _
        rw [List.append_assoc]
        rfl
      · show (db.users ++ [newUserRow db r1.organizer_email
            (emailLocalPart r1.organizer_email)]).find?
            (fun x => x.email == e) = _
        exact hfu e rfl

/-- Witness for C7: two creates on the empty database with organizer
email `"bob@x.io"`. -/
theorem create_twice_single_user_witness :
    ((MeetingService.create_meeting
        (MeetingService.create_meeting DB.empty
          { title := "A", description := none, scheduled_at := none,
            meeting_url := none, organizer_email := "bob@x.io" }).2
        { title := "B", description := none, scheduled_at := none,
          meeting_url := none, organizer_email := "bob@x.io" }).2).users.countP
      (fun x => x.email == "bob@x.io") = 1 ∧
    ∃ m1 m2 u,
      ((MeetingService.create_meeting
          (MeetingService.create_meeting DB.empty
            { title := "A", description := none, scheduled_at := none,
              meeting_url := none, organizer_email := "bob@x.io" }).2
          { title := "B", description := none, scheduled_at := none,
            meeting_url := none, organizer_email := "bob@x.io" }).2).meetings
        = DB.empty.meetings ++ [m1, m2] ∧
      m1.organizerId = u.id ∧ m2.organizerId = u.id ∧
      u.email = "bob@x.io" ∧
      ((MeetingService.create_meeting
          (MeetingService.create_meeting DB.empty
            { title := "A", description := none, scheduled_at := none,
              meeting_url := none, organizer_email := "bob@x.io" }).2
          { title := "B", description := none, scheduled_at := none,
            meeting_url := none, organizer_email := "bob@x.io" }).2).users.find?
        (fun x => x.email == "bob@x.io") = some u :=
  create_twice_single_user DB.empty
    { title := "A", description := none, scheduled_at := none,
      meeting_url := none, organizer_email := "bob@x.io" }
    { title := "B", description := none, scheduled_at := none,
      meeting_url := none, organizer_email := "bob@x.io" }
    "bob@x.io" rfl rfl (by decide)

/-- C8: `started_at` is set only by the start operation and `ended_at`
only by the end operation: every other mutating service operation leaves
both timestamps of every surviving meeting row unchanged, and a created
meeting starts with both absent.  (The remaining operations —
`get_meeting_details`, `list_meetings`, `get_participants` — are reads
and return no state.) -/
theorem timestamps_only_start_end (db : DB) (mid pid : Nat)
    (u : UpdateMeetingRequest) (req : CreateMeetingRequest)
    (pr : AddParticipantRequest) (ja la : Option Nat) :
    (∀ m', m' ∈ ((MeetingService.update_meeting db mid u).2).meetings →
      ∃ m, m ∈ db.meetings ∧ m'.startedAt = m.startedAt ∧
        m'.endedAt = m.endedAt) ∧
    (∀ m, m ∈ db.meetings →
      m ∈ ((MeetingService.create_meeting db req).2).meetings) ∧
    (∃ mNew, ((MeetingService.create_meeting db req).2).meetings
        = db.meetings ++ [mNew] ∧
      mNew.startedAt = none ∧ mNew.endedAt = none) ∧
    (∀ m', m' ∈ ((MeetingService.delete_meeting db mid).2).meetings →
      m' ∈ db.meetings) ∧
    ((MeetingService.add_participant db mid pr).2).meetings = db.meetings ∧
    ((MeetingService.update_participant_status db pid ja la).2).meetings
      = db.meetings := by
  obtain ⟨mNew, hms, -, -, hsa, hea⟩ := create_meeting_meetings db req
  refine ⟨?_, ?_, ⟨mNew, hms, hsa, hea⟩, ?_, ?_, ?_⟩
  · intro m' hm'
    unfold MeetingService.update_meeting at hm'
    cases hfind : db.meetingFindUnique mid with
    | none =>
        rw [hfind] at hm'
        exact ⟨m', hm', rfl, rfl⟩
    | some m0 =>
        rw [hfind] at hm'
        dsimp only at hm'
        rw [meetingUpdate_found _ hfind] at hm'
        dsimp only at hm'
        obtain ⟨x, hx, hfx⟩ := List.mem_map.mp hm'
        by_cases hxid : (x.id == mid) = true
        · rw [if_pos hxid] at hfx
          exact ⟨m0, List.mem_of_find?_eq_some hfind,
            by rw [← hfx]; rfl, by rw [← hfx]; rfl⟩
        · rw [if_neg hxid] at hfx
          exact ⟨x, hx, by rw [← hfx], by rw [← hfx]⟩
  · intro m hm
    rw [hms]
    exact List.mem_append_left _ hm
  · intro m' hm'
    unfold MeetingService.delete_meeting DB.meetingDelete at hm'
    cases hfind : db.meetings.find? (fun x => x.id == mid) with
    | none =>
        rw [hfind] at hm'
        exact hm'
    | some m0 =>
        rw [hfind] at hm'
        dsimp only at hm'
        exact (List.mem_filter.mp hm').1
  · unfold MeetingService.add_participant
    cases hfind : db.meetingFindUnique mid with
    | none => rfl
    | some m0 => rfl
  · unfold MeetingService.update_participant_status DB.participantUpdate
    cases hfind : db.participants.find? (fun p => p.id == pid) with
    | none => rfl
    | some p0 => rfl

/-- Witness for C8 on `sampleDB` (description-only update, a create, a
delete of a missing id, participant operations). -/
theorem timestamps_only_start_end_witness :
    (∃ m, m ∈ sampleDB.meetings ∧
      ({ sampleMeeting with
          description := some "x", updatedAt := 2 } : Meeting).startedAt
        = m.startedAt ∧
      ({ sampleMeeting with
          description := some "x", updatedAt := 2 } : Meeting).endedAt
        = m.endedAt) ∧
    sampleMeeting ∈ ((MeetingService.create_meeting sampleDB
      { title := "T", description := none, scheduled_at := none,
        meeting_url := none, organizer_email := "amy@example.com" }).2).meetings ∧
    sampleMeeting ∈ sampleDB.meetings ∧
    ((MeetingService.add_participant sampleDB 1
      { name := "Bo", email := none }).2).meetings = sampleDB.meetings ∧
    ((MeetingService.update_participant_status sampleDB 9 none none).2).meetings
      = sampleDB.meetings := by
  have h := timestamps_only_start_end sampleDB 1 9
    { title := none, description := some "x", scheduled_at := none,
      meeting_url := none, status := none }
    { title := "T", description := none, scheduled_at := none,
      meeting_url := none, organizer_email := "amy@example.com" }
    { name := "Bo", email := none } none none
  have hdel := timestamps_only_start_end sampleDB 7 9
    { title := none, description := some "x", scheduled_at := none,
      meeting_url := none, status := none }
    { title := "T", description := none, scheduled_at := none,
      meeting_url := none, organizer_email := "amy@example.com" }
    { name := "Bo", email := none } none none
  exact ⟨h.1 _ (by decide), h.2.1 sampleMeeting (by decide),
    hdel.2.2.2.1 sampleMeeting (by decide), h.2.2.2.2.1, h.2.2.2.2.2⟩

/-- C9 counterexample: `status` supplied as the empty string is a
supplied filter value, yet the truthiness check (`if status:`) drops it:
`sampleDB`'s single `SCHEDULED` meeting is returned although its status
does not equal the given value `""`. -/
theorem list_meetings_empty_status_counterexample :
    ∃ r, r ∈ MeetingService.list_meetings sampleDB 0 20 (some "") none ∧
      MeetingStatus.toStr r.status ≠ "" :=
  ⟨MeetingResponse.from_orm sampleDB sampleMeeting, by decide, by decide⟩

/-- C9 (amended): `list_meetings` filters conjunctively for every filter
supplied as a non-empty string — an empty-string filter is dropped by the
code's truthiness check, like `None` — and the returned sequence is
always ordered by creation time descending. -/
theorem list_meetings_filter_sorted (db : DB) (skip limit : Nat)
    (status organizer_email : Option String) :
    (∀ r, r ∈ MeetingService.list_meetings db skip limit status organizer_email →
      (∀ v, status = some v → v ≠ "" → MeetingStatus.toStr r.status = v) ∧
      (∀ v, organizer_email = some v → v ≠ "" →
        ∃ uu, r.organizer = some uu ∧ uu.email = v)) ∧
    List.Sorted createdDescR
      (MeetingService.list_meetings db skip limit status organizer_email) := by
  constructor
  · intro r hr
    unfold MeetingService.list_meetings at hr
    obtain ⟨m, hm, hrm⟩ := List.mem_map.mp hr
    obtain ⟨hmem, hmatch⟩ := meetingFindMany_mem hm
    unfold MeetingWhere.matches at hmatch
    rw [Bool.and_eq_true] at hmatch
    obtain ⟨hstat, horg⟩ := hmatch
    constructor
    · intro v hv hvne
      rw [hv, pyTruthy_some hvne] at hstat
      dsimp only at hstat
      rw [← hrm]
      exact eq_of_beq hstat
    · intro v hv hvne
      rw [hv, pyTruthy_some hvne] at horg
      dsimp only at horg
      cases hfu : db.users.find? (fun u => u.id == m.organizerId) with
      | none =>
          rw [hfu] at horg
          cases horg
      | some uu =>
          rw [hfu] at horg
          refine ⟨uu, ?_, eq_of_beq horg⟩
          rw [← hrm]
          exact hfu
  · unfold MeetingService.list_meetings
    exact List.Pairwise.map _ (fun a b h => h)
      (meetingFindMany_sorted db _ skip limit)

/-- Witness for the amended C9: both filters supplied non-empty on
`sampleDB`. -/
theorem list_meetings_filter_sorted_witness :
    (MeetingStatus.toStr
        (MeetingResponse.from_orm sampleDB sampleMeeting).status
      = "SCHEDULED" ∧
      ∃ uu, (MeetingResponse.from_orm sampleDB sampleMeeting).organizer
          = some uu ∧ uu.email = "amy@example.com") ∧
    List.Sorted createdDescR
      (MeetingService.list_meetings sampleDB 0 20 (some "SCHEDULED")
        (some "amy@example.com")) := by
  obtain ⟨hfil, hsort⟩ := list_meetings_filter_sorted sampleDB 0 20
    (some "SCHEDULED") (some "amy@example.com")
  obtain ⟨h1, h2⟩ := hfil (MeetingResponse.from_orm sampleDB sampleMeeting)
    (by decide)
  exact ⟨⟨h1 "SCHEDULED" rfl (by decide),
    h2 "amy@example.com" rfl (by decide)⟩, hsort⟩

/-- C10: `organizer_email` gets no format validation (it is a plain
string field): for a non-empty organizer email containing no `'@'`, the
call succeeds (given a valid title) and the newly created user's display
name is the entire email string. -/
theorem organizer_email_not_validated (db : DB) (title : String)
    (description : Option String) (scheduled_at : Option Nat)
    (meeting_url : Option String) (e : String)
    (ht : pyStrip title ≠ "") (hne : e ≠ "")
    (hat : ∀ c ∈ e.data, c ≠ '@')
    (hu : db.users.find? (fun x => x.email == e) = none) :
    ∃ req, CreateMeetingRequest.validate title description scheduled_at
        meeting_url e = Except.ok req ∧
      req.organizer_email = e ∧
      ∃ newU, ((MeetingService.create_meeting db req).2).users
          = db.users ++ [newU] ∧
        newU.email = e ∧ newU.name = some e := by
  have hcond : ¬(title = "" ∨ (pyStrip title).length = 0) :=
    fun hc => ht ((validate_title_cond title).mp hc)
  have hval : validate_title title = Except.ok (pyStrip title) := by
    unfold validate_title
    rw [if_neg hcond]
  refine ⟨{ title := pyStrip title, description := description,
            scheduled_at := scheduled_at, meeting_url := meeting_url,
            organizer_email := e }, ?_, rfl, ?_⟩
  · unfold CreateMeetingRequest.validate
    rw [hval]
  · rw [create_meeting_new_user hu]
    dsimp only
    refine ⟨newUserRow db e (emailLocalPart e), ?_, rfl, ?_⟩
    · show db.users ++ [newUserRow db e (emailLocalPart e)] = _
      rfl
    · show some (emailLocalPart e) = some e
      rw [emailLocalPart_no_at hat]

/-- Witness for C10: the at-sign-free organizer email `"localonly"` on
the empty database. -/
theorem organizer_email_not_validated_witness :
    ∃ req, CreateMeetingRequest.validate "T" none none none "localonly"
        = Except.ok req ∧
      req.organizer_email = "localonly" ∧
      ∃ newU, ((MeetingService.create_meeting DB.empty req).2).users
          = DB.empty.users ++ [newU] ∧
        newU.email = "localonly" ∧ newU.name = some "localonly" :=
  organizer_email_not_validated DB.empty "T" none none none "localonly"
    (by decide) (by decide) (by decide) (by decide)

/-- C4: `update_meeting` applies exactly the non-`None` fields of the
partial update and leaves omitted fields unchanged (in particular a
description-only update leaves title, scheduled_at, meeting_url and
status untouched); a missing id yields not-found from the existence
pre-check, with the database unchanged. -/
theorem update_meeting_applies_supplied (db : DB) (id : Nat) (u : UpdateMeetingRequest) :
    (db.meetingFindUnique id = none →
      MeetingService.update_meeting db id u = (none, db)) ∧
    (∀ m, db.meetingFindUnique id = some m →
      ∃ m', ((MeetingService.update_meeting db id u).2).meetingFindUnique id
          = some m' ∧
        m'.title = (match u.title with | some v => v | none => m.title) ∧
        m'.description =
          (match u.description with | some v => some v | none => m.description) ∧
        m'.scheduledAt =
          (match u.scheduled_at with | some v => some v | none => m.scheduledAt) ∧
        m'.meetingUrl =
          (match u.meeting_url with | some v => some v | none => m.meetingUrl) ∧
        m'.status = (match u.status with | some v => v | none => m.status) ∧
        m'.startedAt = m.startedAt ∧ m'.endedAt = m.endedAt ∧
        (u.title = none → u.scheduled_at = none → u.meeting_url = none →
          u.status = none →
          m'.title = m.title ∧ m'.scheduledAt = m.scheduledAt ∧
          m'.meetingUrl = m.meetingUrl ∧ m'.status = m.status)) := by
  constructor
  · intro h
    unfold MeetingService.update_meeting
    rw [h]
  · intro m h
    unfold MeetingService.update_meeting
    rw [h]
    dsimp only
    rw [meetingUpdate_found _ h]
    dsimp only
    refine ⟨m.applyUpdate
      { title := u.title, description := u.description,
        scheduledAt := u.scheduled_at, meetingUrl := u.meeting_url,
        status := u.status, startedAt := none, endedAt := none } db.now,
      ?_, rfl, rfl, rfl, rfl, rfl, rfl, rfl, ?_⟩
    · unfold DB.meetingFindUnique
      exact find?_map_update _ _ _ _ h
        ((applyUpdate_id _ _ _).trans (meetingFindUnique_id h))
    · intro ht hs hmu hst
      refine ⟨?_, ?_, ?_, ?_⟩
      · rw [show (m.applyUpdate
            { title := u.title, description := u.description,
              scheduledAt := u.scheduled_at, meetingUrl := u.meeting_url,
              status := u.status, startedAt := none, endedAt := none }
            db.now).title = (match u.title with | some v => v | none => m.title)
          from rfl, ht]
      · rw [show (m.applyUpdate
            { title := u.title, description := u.description,
              scheduledAt := u.scheduled_at, meetingUrl := u.meeting_url,
              status := u.status, startedAt := none, endedAt := none }
            db.now).scheduledAt
            = (match u.scheduled_at with | some v => some v | none => m.scheduledAt)
          from rfl, hs]
      · rw [show (m.applyUpdate
            { title := u.title, description := u.description,
              scheduledAt := u.scheduled_at, meetingUrl := u.meeting_url,
              status := u.status, startedAt := none, endedAt := none }
            db.now).meetingUrl
            = (match u.meeting_url with | some v => some v | none => m.meetingUrl)
          from rfl, hmu]
      · rw [show (m.applyUpdate
            { title := u.title, description := u.description,
              scheduledAt := u.scheduled_at, meetingUrl := u.meeting_url,
              status := u.status, startedAt := none, endedAt := none }
            db.now).status = (match u.status with | some v => v | none => m.status)
          from rfl, hst]

/-- Witness for C4: a description-only update of `sampleMeeting`, and the
missing id `7`. -/
theorem update_meeting_applies_supplied_witness :
    (MeetingService.update_meeting sampleDB 7
      { title := none, description := some "x", scheduled_at := none,
        meeting_url := none, status := none } = (none, sampleDB)) ∧
    ∃ m', ((MeetingService.update_meeting sampleDB 1
        { title := none, description := some "x", scheduled_at := none,
          meeting_url := none, status := none }).2).meetingFindUnique 1
        = some m' ∧
      m'.title = sampleMeeting.title ∧ m'.description = some "x" ∧
      m'.scheduledAt = sampleMeeting.scheduledAt ∧
      m'.meetingUrl = sampleMeeting.meetingUrl ∧
      m'.status = sampleMeeting.status ∧
      m'.startedAt = sampleMeeting.startedAt ∧
      m'.endedAt = sampleMeeting.endedAt := by
  constructor
  · exact (update_meeting_applies_supplied sampleDB 7
      { title := none, description := some "x", scheduled_at := none,
        meeting_url := none, status := none }).1 (by decide)
  · obtain ⟨m', hfind, hti, hd, hsc, hmu, hst, hsa, hea, -⟩ :=
      (update_meeting_applies_supplied sampleDB 1
        { title := none, description := some "x", scheduled_at := none,
          meeting_url := none, status := none }).2 sampleMeeting (by decide)
    exact ⟨m', hfind, hti, hd, hsc, hmu, hst, hsa, hea⟩

/-- C5: `delete_meeting` always returns a boolean (it catches every
gateway failure): `false` when the id does not exist (state unchanged),
`true` when it does, after which `get_meeting_details` on that id
reports not-found. -/
theorem delete_meeting_swallows (db : DB) (id : Nat) :
    (db.meetingFindUnique id = none →
      MeetingService.delete_meeting db id = (false, db)) ∧
    (∀ m, db.meetingFindUnique id = some m →
      (MeetingService.delete_meeting db id).1 = true ∧
      ∀ a b c, MeetingService.get_meeting_details
        ((MeetingService.delete_meeting db id).2) id a b c = none) := by
  constructor
  · intro h
    unfold MeetingService.delete_meeting DB.meetingDelete
    unfold DB.meetingFindUnique at h
    rw [h]
  · intro m h
    unfold MeetingService.delete_meeting DB.meetingDelete
    unfold DB.meetingFindUnique at h
    rw [h]
    dsimp only
    refine ⟨rfl, ?_⟩
    intro a b c
    unfold MeetingService.get_meeting_details DB.meetingFindUnique
    have hnone : List.find? (fun x => x.id == id)
        (db.meetings.filter (fun x => !(x.id == id))) = none := by
      rw [List.find?_eq_none]
      intro x hx hpx
      have := (List.mem_filter.mp hx).2
      rw [hpx] at this
      cases this
    rw [hnone]

/-- Witness for C5 on `sampleDB`: id `7` is missing, id `1` exists. -/
theorem delete_meeting_swallows_witness :
    (MeetingService.delete_meeting sampleDB 7 = (false, sampleDB)) ∧
    ((MeetingService.delete_meeting sampleDB 1).1 = true ∧
      MeetingService.get_meeting_details
        ((MeetingService.delete_meeting sampleDB 1).2) 1 true true true = none) :=
  ⟨(delete_meeting_swallows sampleDB 7).1 (by decide),
   ((delete_meeting_swallows sampleDB 1).2 sampleMeeting (by decide)).1,
   ((delete_meeting_swallows sampleDB 1).2 sampleMeeting (by decide)).2 true true true⟩

/-- Witness for C1 at a missing id (`7` in `sampleDB`) and at the
existing id `1`. -/
theorem startEnd_notFound_or_updated_witness :
    ((MeetingService.start_meeting sampleDB 7).1 = none ∧
      (MeetingService.end_meeting sampleDB 7).1 = none ∧
      (routes.start_meeting sampleDB 7).1 =
        Except.error { status_code := 404, detail := "Meeting not found" } ∧
      (routes.end_meeting sampleDB 7).1 =
        Except.error { status_code := 404, detail := "Meeting not found" }) ∧
    ((∃ r, (MeetingService.start_meeting sampleDB 1).1 = some r ∧
        r.id = sampleMeeting.id ∧ r.status = MeetingStatus.IN_PROGRESS ∧
        r.started_at = some sampleDB.now) ∧
      (∃ r, (MeetingService.end_meeting sampleDB 1).1 = some r ∧
        r.id = sampleMeeting.id ∧ r.status = MeetingStatus.COMPLETED ∧
        r.ended_at = some sampleDB.now)) :=
  ⟨(startEnd_notFound_or_updated sampleDB 7).1 (by decide),
   (startEnd_notFound_or_updated sampleDB 1).2 sampleMeeting (by decide)⟩

end SmartMeeting
